import Mathlib

/-!
Verification of the Painter drawing widget (`src/utils/Painter.tsx`).

The component is shallowly embedded: React `useState` hooks become an
explicit `PainterState`, the DOM canvas becomes a `Canvas` record held in
an `Option` (`none` = `canvasRef.current` is null), and every handler is a
pure function from state and event to a new state together with a list of
observable `Effect`s (stroke-render calls and console emissions).
Coordinates are rationals.
-/

namespace Paintfolio

/-- `type Coordinates = { x: number; y: number }`. -/
structure Coordinates where
  x : ℚ
  y : ℚ
deriving DecidableEq

/-- The first touch contact point of a touch event (`event.touches[0]`),
carrying the fields the code reads: `pageX` and `pageY`. -/
structure Touch where
  pageX : ℚ
  pageY : ℚ
deriving DecidableEq

/-- The `event.type` strings the code compares against, plus the other
event kinds the canvas listens to. -/
inductive EventType
  | touchstart
  | touchmove
  | touchend
  | mousedown
  | mousemove
  | mouseup
deriving DecidableEq

/-- A pointer or touch event, with exactly the fields `getCoordinates`
reads: `type`, `touches[0]` (as `touches0`), `clientX`, `clientY`. -/
structure PEvent where
  type : EventType
  touches0 : Touch
  clientX : ℚ
  clientY : ℚ
deriving DecidableEq

/-- The canvas element: its document offsets, backing-store size
(`canvas.width`/`canvas.height`), the size reported by
`getBoundingClientRect()`, and whether `getContext("2d")` succeeds. -/
structure Canvas where
  offsetLeft : ℚ
  offsetTop : ℚ
  width : ℚ
  height : ℚ
  boundingWidth : ℚ
  boundingHeight : ℚ
  hasContext : Bool
deriving DecidableEq

/-- `window.devicePixelRatio`; `none` models the property being absent,
in which case the destructuring default `= 1` applies. -/
structure Window where
  devicePixelRatio : Option ℚ
deriving DecidableEq

/-- `PainterInterface`: `recordPoints?: boolean` (optional), `threshold`,
`lineWidth`. -/
structure Props where
  recordPoints : Option Bool
  threshold : ℚ
  lineWidth : ℚ
deriving DecidableEq

/-- The component's hook state: `drawing`, `position`, `data`. -/
structure PainterState where
  drawing : Bool
  position : Option Coordinates
  data : List Coordinates
deriving DecidableEq

/-- `useState(false)`, `useState(null)`, `useState([])`. -/
def initialState : PainterState := ⟨false, none, []⟩

/-- Observable effects: a `context.stroke()` of a segment, or a
`console.log` of the point list. -/
inductive Effect
  | render (p1 p2 : Coordinates)
  | log (points : List Coordinates)
deriving DecidableEq

/-- JavaScript truthiness of `props.recordPoints` (`undefined` is falsy). -/
def truthy (b : Option Bool) : Bool := b.getD false

/-- JS `data != []` compares array references, never contents; the fresh
`[]` literal is a distinct object, so the comparison is always true. -/
def neqEmptyArray (_data : List Coordinates) : Bool := true

/-- `getCoordinates`: null canvas yields null; `touchstart`/`touchmove`
events read `touches[0].pageX/pageY`, all others `clientX/clientY`; the
canvas offsets are subtracted. -/
def getCoordinates (canvasRef : Option Canvas) (event : PEvent) :
    Option Coordinates :=
  match canvasRef with
  | none => none
  | some c =>
    let xy : ℚ × ℚ :=
      if event.type = EventType.touchstart ∨ event.type = EventType.touchmove
      then (event.touches0.pageX, event.touches0.pageY)
      else (event.clientX, event.clientY)
    some ⟨xy.1 - c.offsetLeft, xy.2 - c.offsetTop⟩

/-- The squared Euclidean distance `(p2.x - p1.x)² + (p2.y - p1.y)²`,
the radicand of `getDistance`. -/
def distSq (p1 p2 : Coordinates) : ℚ :=
  (p2.x - p1.x) ^ 2 + (p2.y - p1.y) ^ 2

/-- The test `getDistance(p1, p2) > threshold`, i.e.
`Math.sqrt(distSq p1 p2) > t`, decided over ℚ: since the radicand is
nonnegative, the square root exceeds `t` iff `t < 0` or `t² < distSq`.
`distGtThreshold_iff` below proves this agrees with `Real.sqrt`. -/
def distGtThreshold (p1 p2 : Coordinates) (t : ℚ) : Bool :=
  decide (t < 0) || decide (t ^ 2 < distSq p1 p2)

/-- `drawLine`: early return when the canvas ref is null; a single stroke
when the 2D context is obtained; silently nothing otherwise. -/
def drawLine (canvasRef : Option Canvas) (p1 p2 : Coordinates) :
    List Effect :=
  match canvasRef with
  | none => []
  | some c => if c.hasContext then [Effect.render p1 p2] else []

/-- `onDown`: if `getCoordinates` succeeds, set position to the down-point
and set drawing; otherwise do nothing. -/
def onDown (canvasRef : Option Canvas) (event : PEvent)
    (s : PainterState) : PainterState × List Effect :=
  match getCoordinates canvasRef event with
  | some coordinates => (⟨true, some coordinates, s.data⟩, [])
  | none => (s, [])

/-- `onUp`: unconditionally stop drawing and clear the position. -/
def onUp (s : PainterState) : PainterState × List Effect :=
  (⟨false, none, s.data⟩, [])

/-- `onMove`: only while drawing, with a current position and a mapped
candidate whose distance exceeds the threshold, draw the segment, move the
position, and append the candidate to `data`
(`setData(newData.concat(newPosition))`). -/
def onMove (props : Props) (canvasRef : Option Canvas) (event : PEvent)
    (s : PainterState) : PainterState × List Effect :=
  if s.drawing then
    match s.position, getCoordinates canvasRef event with
    | some position, some newPosition =>
      if distGtThreshold position newPosition props.threshold then
        (⟨s.drawing, some newPosition, s.data ++ [newPosition]⟩,
          drawLine canvasRef position newPosition)
      else (s, [])
    | some _, none => (s, [])
    | none, _ => (s, [])
  else (s, [])

/-- The debug `useEffect` body: `if (props.recordPoints && !drawing &&
data != []) console.log(data)`. -/
def debugEffect (props : Props) (s : PainterState) : List Effect :=
  if truthy props.recordPoints && !s.drawing && neqEmptyArray s.data then
    [Effect.log s.data]
  else []

/-- The debug `useEffect` has dependency list `[drawing]`: it re-runs
exactly when the `drawing` flag changed in the render. -/
def applyDebug (props : Props) (oldDrawing : Bool) (s : PainterState) :
    List Effect :=
  if s.drawing = oldDrawing then [] else debugEffect props s

/-- `redraw`: `for (i = 0; i < data.length - 1; i++)
drawLine(data[i], data[i+1])`. -/
def redraw (canvasRef : Option Canvas) (data : List Coordinates) :
    List Effect :=
  ((List.range (data.length - 1)).map fun i =>
    drawLine canvasRef (data.getD i ⟨0, 0⟩) (data.getD (i + 1) ⟨0, 0⟩)).flatten

/-- `resizeCanvas`: when the bounding box differs from the backing size
and a context is obtained, rescale the backing store by the device pixel
ratio and replay the recorded points; on a missing context, `return null`
(no mutation, no effects). -/
def resizeCanvas (canvas : Canvas) (window : Window)
    (data : List Coordinates) : Canvas × List Effect :=
  if canvas.width ≠ canvas.boundingWidth ∨
      canvas.height ≠ canvas.boundingHeight then
    if canvas.hasContext then
      let ratio := window.devicePixelRatio.getD 1
      let canvas' := { canvas with
        width := canvas.boundingWidth * ratio,
        height := canvas.boundingHeight * ratio }
      (canvas', redraw (some canvas') data)
    else (canvas, [])
  else (canvas, [])

/-- The resize `useEffect`: `resizeCanvas(canvasRef.current!)`. The
non-null assertion means a null ref flows into
`canvas.getBoundingClientRect()`, which throws a TypeError — modelled as
`.error ()`. -/
def resizeEffect (canvasRef : Option Canvas) (window : Window)
    (data : List Coordinates) : Except Unit (Canvas × List Effect) :=
  match canvasRef with
  | none => Except.error ()
  | some c => Except.ok (resizeCanvas c window data)

/-- Pointer-session events: the three canvas handlers. -/
inductive PtrEvent
  | down (e : PEvent)
  | up
  | move (e : PEvent)

/-- One pointer event processed by its handler, followed by the debug
effect when the `drawing` flag changed. -/
def stepP (props : Props) (canvasRef : Option Canvas) (s : PainterState) :
    PtrEvent → PainterState × List Effect
  | PtrEvent.down e =>
    let r := onDown canvasRef e s
    (r.1, r.2 ++ applyDebug props s.drawing r.1)
  | PtrEvent.up =>
    let r := onUp s
    (r.1, r.2 ++ applyDebug props s.drawing r.1)
  | PtrEvent.move e =>
    let r := onMove props canvasRef e s
    (r.1, r.2 ++ applyDebug props s.drawing r.1)

/-- A pointer-event sequence processed in order, accumulating effects. -/
def runP (props : Props) (canvasRef : Option Canvas) :
    PainterState → List PtrEvent → PainterState × List Effect
  | s, [] => (s, [])
  | s, e :: rest =>
    let r := stepP props canvasRef s e
    let r' := runP props canvasRef r.1 rest
    (r'.1, r.2 ++ r'.2)

/-- The second endpoints of the stroke-render effects, in order. -/
def renderedEndpoints (effs : List Effect) : List Coordinates :=
  effs.filterMap fun e =>
    match e with
    | Effect.render _ p2 => some p2
    | Effect.log _ => none

/-- The stroke-render effects of an effect list, in order. -/
def renderCalls (effs : List Effect) : List Effect :=
  effs.filter fun e =>
    match e with
    | Effect.render _ _ => true
    | Effect.log _ => false

/-! ### Concrete instances for witnesses and counterexamples

The configuration mirrors the home page: `<Painter lineWidth={3}
threshold={4} recordPoints={true} />`; the no-props variant leaves
`recordPoints` unset. -/

/-- The home page configuration: `lineWidth 3`, `threshold 4`,
`recordPoints true`. -/
def exProps : Props := ⟨some true, 4, 3⟩

/-- The same configuration with `recordPoints` left unset. -/
def exPropsOff : Props := ⟨none, 4, 3⟩

/-- A mounted canvas whose backing size disagrees with its bounding box
(so a resize fires) and whose 2D context is available. -/
def exCanvas : Canvas := ⟨0, 0, 100, 100, 200, 150, true⟩

/-- A mounted canvas whose `getContext(\"2d\")` fails. -/
def exCanvasNoCtx : Canvas := ⟨0, 0, 100, 100, 200, 150, false⟩

/-- A mounted canvas with nonzero document offsets. -/
def exCanvasOffset : Canvas := ⟨10, 20, 100, 100, 200, 150, true⟩

/-- `window` with `devicePixelRatio = 1`. -/
def exWindow : Window := ⟨some 1⟩

/-- A mouse-down at client (0, 0). -/
def exDown0 : PEvent := ⟨EventType.mousedown, ⟨0, 0⟩, 0, 0⟩

/-- A mouse-move to client (1, 1) — below the threshold from (0, 0). -/
def exMove1 : PEvent := ⟨EventType.mousemove, ⟨0, 0⟩, 1, 1⟩

/-- A mouse-move to client (5, 5) — above the threshold from (0, 0). -/
def exMove5 : PEvent := ⟨EventType.mousemove, ⟨0, 0⟩, 5, 5⟩

/-- A mouse-move to client (10, 10). -/
def exMove10 : PEvent := ⟨EventType.mousemove, ⟨0, 0⟩, 10, 10⟩

/-- A touch-start whose first contact point is at page (30, 40). -/
def exTouch : PEvent := ⟨EventType.touchstart, ⟨30, 40⟩, 1, 2⟩

/-- A drawing session in progress at position (0, 0). -/
def exStateDrawing : PainterState := ⟨true, some ⟨0, 0⟩, []⟩

/-- A drawing session in progress with one recorded point. -/
def exStateAfter : PainterState := ⟨true, some ⟨5, 5⟩, [⟨5, 5⟩]⟩

/-- Down at (0,0), then qualifying moves to (5,5) and (10,10). -/
def exEventsA : List PtrEvent :=
  [PtrEvent.down exDown0, PtrEvent.move exMove5, PtrEvent.move exMove10]

/-- Down at (0,0), a sub-threshold move to (1,1), a qualifying move to
(5,5), then up — the spec's concrete scenario. -/
def exEventsB : List PtrEvent :=
  [PtrEvent.down exDown0, PtrEvent.move exMove1, PtrEvent.move exMove5,
   PtrEvent.up]

/-- A three-point recorded path. -/
def exData3 : List Coordinates := [⟨0, 0⟩, ⟨5, 5⟩, ⟨10, 10⟩]

/-! ### Bridging lemmas -/

/-- The squared distance is nonnegative. -/
lemma distSq_nonneg (p1 p2 : Coordinates) : 0 ≤ distSq p1 p2 := by
  unfold distSq; positivity

/-- The decidable threshold test agrees with the Euclidean distance
`Math.sqrt((p2.x-p1.x)² + (p2.y-p1.y)²)` compared against the threshold. -/
lemma distGtThreshold_iff (p1 p2 : Coordinates) (t : ℚ) :
    distGtThreshold p1 p2 t = true ↔
      (t : ℝ) < Real.sqrt ((distSq p1 p2 : ℚ) : ℝ) := by
  unfold distGtThreshold
  simp only [Bool.or_eq_true, decide_eq_true_eq]
  rcases lt_or_le t 0 with ht | ht
  · have ht' : (t : ℝ) < 0 := by exact_mod_cast ht
    have : (t : ℝ) < Real.sqrt ((distSq p1 p2 : ℚ) : ℝ) :=
      lt_of_lt_of_le ht' (Real.sqrt_nonneg _)
    simp [ht, this]
  · have ht' : (0 : ℝ) ≤ (t : ℝ) := by exact_mod_cast ht
    rw [Real.lt_sqrt ht']
    constructor
    · rintro (h | h)
      · exact absurd h (not_lt.mpr ht)
      · exact_mod_cast h
    · intro h
      right
      exact_mod_cast h

/-- Flattening a list of singletons is a map. -/
lemma flatten_map_singleton {α β : Type} (l : List α) (f : α → β) :
    (l.map fun a => [f a]).flatten = l.map f := by
  induction l with
  | nil => rfl
  | cons a tl ih => simp [ih]

/-- The indexed loop over `0 ≤ i < length - 1` produces exactly the
consecutive pairs of the list. -/
lemma range_map_render (data : List Coordinates) :
    ((List.range (data.length - 1)).map fun i =>
      Effect.render (data.getD i ⟨0, 0⟩) (data.getD (i + 1) ⟨0, 0⟩)) =
    List.zipWith Effect.render data data.tail := by
  induction data with
  | nil => simp
  | cons a tl ih =>
    cases tl with
    | nil => simp
    | cons b rest =>
      have h1 : (a :: b :: rest).length - 1 = rest.length + 1 := by simp
      rw [h1, List.range_succ_eq_map, List.map_cons, List.map_map]
      simp only [List.getD_cons_zero, List.getD_cons_succ, Function.comp,
        List.tail_cons, List.zipWith_cons_cons]
      congr 1

/-- With a mounted canvas and an available context, `redraw` strokes the
consecutive pairs of the recorded data, in order. -/
lemma redraw_eq_zipWith (c : Canvas) (hc : c.hasContext = true)
    (data : List Coordinates) :
    redraw (some c) data = List.zipWith Effect.render data data.tail := by
  unfold redraw
  simp only [drawLine, hc, if_true]
  rw [flatten_map_singleton, range_map_render]

/-- The debug effect contributes no rendered endpoints. -/
lemma renderedEndpoints_applyDebug (props : Props) (b : Bool)
    (s : PainterState) : renderedEndpoints (applyDebug props b s) = [] := by
  unfold applyDebug debugEffect renderedEndpoints
  split
  · rfl
  · split
    · rfl
    · rfl

/-- Computation rules for `renderedEndpoints`. -/
lemma renderedEndpoints_nil : renderedEndpoints [] = [] := rfl

/-- A stroke-render effect contributes its second endpoint. -/
lemma renderedEndpoints_render (p q : Coordinates) (l : List Effect) :
    renderedEndpoints (Effect.render p q :: l) =
      q :: renderedEndpoints l := rfl

/-- `renderedEndpoints` distributes over append. -/
lemma renderedEndpoints_append (l1 l2 : List Effect) :
    renderedEndpoints (l1 ++ l2) =
      renderedEndpoints l1 ++ renderedEndpoints l2 := by
  unfold renderedEndpoints
  exact List.filterMap_append l1 l2 _

/-- When every mounted canvas has a context, a single pointer event grows
`data` by exactly the endpoints of the strokes it renders. -/
lemma stepP_data (props : Props) (cv : Option Canvas) (s : PainterState)
    (e : PtrEvent) (hctx : ∀ c, cv = some c → c.hasContext = true) :
    (stepP props cv s e).1.data =
      s.data ++ renderedEndpoints (stepP props cv s e).2 := by
  cases e with
  | down e =>
    unfold stepP onDown
    cases h : getCoordinates cv e <;>
      simp [h, renderedEndpoints_append, renderedEndpoints_applyDebug,
        renderedEndpoints_nil, renderedEndpoints_render]
  | up =>
    unfold stepP onUp
    simp [renderedEndpoints_append, renderedEndpoints_applyDebug,
      renderedEndpoints_nil]
  | move e =>
    unfold stepP onMove
    cases hd : s.drawing
    · simp [hd, renderedEndpoints_append, renderedEndpoints_applyDebug,
        renderedEndpoints_nil]
    · cases hp : s.position with
      | none =>
        simp [hd, hp, renderedEndpoints_append,
          renderedEndpoints_applyDebug, renderedEndpoints_nil]
      | some p =>
        cases hq : getCoordinates cv e with
        | none =>
          simp [hd, hp, hq, renderedEndpoints_append,
            renderedEndpoints_applyDebug, renderedEndpoints_nil]
        | some q =>
          cases cv with
          | none => simp [getCoordinates] at hq
          | some c =>
            have hc : c.hasContext = true := hctx c rfl
            cases ht : distGtThreshold p q props.threshold <;>
              simp [hd, hp, hq, ht, renderedEndpoints_append,
                renderedEndpoints_applyDebug, renderedEndpoints_nil,
                renderedEndpoints_render, drawLine, hc, applyDebug]

/-- Over any pointer-event sequence (with contexts available on mounted
canvases), the recorded data grows by exactly the rendered endpoints. -/
lemma runP_data (props : Props) (cv : Option Canvas)
    (hctx : ∀ c, cv = some c → c.hasContext = true) :
    ∀ (events : List PtrEvent) (s : PainterState),
      (runP props cv s events).1.data =
        s.data ++ renderedEndpoints (runP props cv s events).2 := by
  intro events
  induction events with
  | nil => intro s; simp [runP, renderedEndpoints]
  | cons e rest ih =>
    intro s
    show (runP props cv (stepP props cv s e).1 rest).1.data =
      s.data ++ renderedEndpoints
        ((stepP props cv s e).2 ++ (runP props cv (stepP props cv s e).1 rest).2)
    rw [renderedEndpoints_append, ih, stepP_data props cv s e hctx,
      List.append_assoc]

/-- A single pointer event never changes the hook state differently for a
different `recordPoints` value. -/
lemma stepP_state_recordPoints (props : Props) (rp : Option Bool)
    (cv : Option Canvas) (s : PainterState) (e : PtrEvent) :
    (stepP { props with recordPoints := rp } cv s e).1 =
      (stepP props cv s e).1 := by
  cases e <;> rfl

/-- The hook state after a pointer-event sequence is independent of
`recordPoints`. -/
lemma runP_state_recordPoints (props : Props) (rp : Option Bool)
    (cv : Option Canvas) :
    ∀ (events : List PtrEvent) (s : PainterState),
      (runP { props with recordPoints := rp } cv s events).1 =
        (runP props cv s events).1 := by
  intro events
  induction events with
  | nil => intro s; rfl
  | cons e rest ih =>
    intro s
    show (runP { props with recordPoints := rp } cv
        (stepP { props with recordPoints := rp } cv s e).1 rest).1 =
      (runP props cv (stepP props cv s e).1 rest).1
    rw [stepP_state_recordPoints, ih]

/-- One pointer event preserves the invariant "drawing implies a current
position exists". -/
lemma stepP_drawing_position (props : Props) (cv : Option Canvas)
    (s : PainterState) (e : PtrEvent)
    (hs : s.drawing = true → s.position.isSome = true) :
    (stepP props cv s e).1.drawing = true →
      (stepP props cv s e).1.position.isSome = true := by
  cases e with
  | down e =>
    unfold stepP onDown
    cases h : getCoordinates cv e with
    | none => simp [h]; exact hs
    | some q => simp [h]
  | up => intro h; simp [stepP, onUp] at h
  | move e =>
    unfold stepP onMove
    cases hd : s.drawing
    · simp [hd]
    · cases hp : s.position with
      | none =>
        intro _
        have := hs hd
        rw [hp] at this
        simp at this
      | some p =>
        cases hq : getCoordinates cv e with
        | none => simp [hd, hp, hq]
        | some q =>
          cases ht : distGtThreshold p q props.threshold <;>
            simp [hd, hp, hq, ht]

/-- When the bounding box disagrees with the backing size and the context
is available, the resize replay strokes the consecutive pairs of the
recorded data. -/
lemma resizeCanvas_effects (c : Canvas) (w : Window)
    (data : List Coordinates) (hc : c.hasContext = true)
    (hmis : c.width ≠ c.boundingWidth ∨ c.height ≠ c.boundingHeight) :
    (resizeCanvas c w data).2 =
      List.zipWith Effect.render data data.tail := by
  unfold resizeCanvas
  rw [if_pos hmis, if_pos hc]
  exact redraw_eq_zipWith _ hc data

/-- Consecutive-pair zipping yields one element fewer than the list. -/
lemma zipWith_render_tail_length (data : List Coordinates) :
    (List.zipWith Effect.render data data.tail).length =
      data.length - 1 := by
  rw [List.length_zipWith, List.length_tail]
  omega

/-- The invariant "drawing implies a current position exists" is
preserved by any pointer-event sequence. -/
lemma runP_drawing_position (props : Props) (cv : Option Canvas) :
    ∀ (events : List PtrEvent) (s : PainterState),
      (s.drawing = true → s.position.isSome = true) →
      ((runP props cv s events).1.drawing = true →
        (runP props cv s events).1.position.isSome = true) := by
  intro events
  induction events with
  | nil => intro s hs; exact hs
  | cons e rest ih =>
    intro s hs
    exact ih (stepP props cv s e).1 (stepP_drawing_position props cv s e hs)

/-! ### Claim theorems -/

/-- C6: the coordinate mapper returns the event coordinate minus the
canvas offsets — the first touch contact point for `touchstart`/
`touchmove`, the client coordinates otherwise — and returns `none` on a
null canvas. -/
theorem getCoordinates_spec (c : Canvas) (e : PEvent) :
    getCoordinates none e = none ∧
    ((e.type = EventType.touchstart ∨ e.type = EventType.touchmove) →
      getCoordinates (some c) e =
        some ⟨e.touches0.pageX - c.offsetLeft,
              e.touches0.pageY - c.offsetTop⟩) ∧
    (e.type ≠ EventType.touchstart → e.type ≠ EventType.touchmove →
      getCoordinates (some c) e =
        some ⟨e.clientX - c.offsetLeft, e.clientY - c.offsetTop⟩) := by
  refine ⟨rfl, ?_, ?_⟩
  · intro h
    unfold getCoordinates
    rw [if_pos h]
  · intro h1 h2
    unfold getCoordinates
    rw [if_neg (by simp [h1, h2])]

/-- C6 witness: concrete touch, mouse, and null-canvas inputs. -/
theorem getCoordinates_spec_witness :
    getCoordinates (some exCanvasOffset) exTouch = some ⟨20, 20⟩ ∧
    getCoordinates (some exCanvasOffset) exMove5 = some ⟨-5, -15⟩ ∧
    getCoordinates none exMove5 = none := by
  refine ⟨?_, ?_, (getCoordinates_spec exCanvasOffset exMove5).1⟩
  · have h := (getCoordinates_spec exCanvasOffset exTouch).2.1 (Or.inl rfl)
    rw [h]
    norm_num [exTouch, exCanvasOffset]
  · have h :=
      (getCoordinates_spec exCanvasOffset exMove5).2.2 (by decide) (by decide)
    rw [h]
    norm_num [exMove5, exCanvasOffset]

/-- C7: a pointer-down whose coordinate mapping succeeds always enters
the drawing state with the down-point as current position, whatever the
prior state, and emits no effects. -/
theorem onDown_spec (props : Props) (cv : Option Canvas) (e : PEvent)
    (s : PainterState) (q : Coordinates)
    (hq : getCoordinates cv e = some q) :
    stepP props cv s (PtrEvent.down e) = (⟨true, some q, s.data⟩, []) := by
  unfold stepP onDown
  simp [hq, applyDebug, debugEffect]

/-- C7 witness: a mouse-down at (0, 0) on the mounted canvas from the
idle initial state. -/
theorem onDown_spec_witness :
    stepP exProps (some exCanvas) initialState (PtrEvent.down exDown0) =
      (⟨true, some ⟨0, 0⟩, initialState.data⟩, []) :=
  onDown_spec exProps (some exCanvas) exDown0 initialState ⟨0, 0⟩
    (by norm_num [getCoordinates, exCanvas, exDown0])

/-- C2: while a stroke is active with current position `p` and mapped
candidate `q`, a move event renders nothing and keeps the state when the
Euclidean distance from `p` to `q` is at most the threshold, and renders
exactly the segment `p → q` and moves the position to `q` when the
distance exceeds it. -/
theorem onMove_threshold_behavior (props : Props) (c : Canvas)
    (e : PEvent) (s : PainterState) (p q : Coordinates)
    (hd : s.drawing = true) (hp : s.position = some p)
    (hq : getCoordinates (some c) e = some q)
    (hc : c.hasContext = true) :
    (Real.sqrt ((distSq p q : ℚ) : ℝ) ≤ ((props.threshold : ℚ) : ℝ) →
      onMove props (some c) e s = (s, [])) ∧
    (((props.threshold : ℚ) : ℝ) < Real.sqrt ((distSq p q : ℚ) : ℝ) →
      onMove props (some c) e s =
        (⟨true, some q, s.data ++ [q]⟩, [Effect.render p q])) := by
  constructor
  · intro hle
    have hfalse : ¬ distGtThreshold p q props.threshold = true := by
      rw [distGtThreshold_iff]
      exact not_lt.mpr hle
    rw [Bool.not_eq_true] at hfalse
    unfold onMove
    simp [hd, hp, hq, hfalse]
  · intro hlt
    have htrue : distGtThreshold p q props.threshold = true :=
      (distGtThreshold_iff p q props.threshold).mpr hlt
    unfold onMove
    simp [hd, hp, hq, htrue, drawLine, hc]

/-- C2 witness: threshold 4, position (0, 0), candidate (5, 5). -/
theorem onMove_threshold_behavior_witness :
    (Real.sqrt ((distSq ⟨0, 0⟩ ⟨5, 5⟩ : ℚ) : ℝ) ≤ ((4 : ℚ) : ℝ) →
      onMove exProps (some exCanvas) exMove5 exStateDrawing =
        (exStateDrawing, [])) ∧
    (((4 : ℚ) : ℝ) < Real.sqrt ((distSq ⟨0, 0⟩ ⟨5, 5⟩ : ℚ) : ℝ) →
      onMove exProps (some exCanvas) exMove5 exStateDrawing =
        (⟨true, some ⟨5, 5⟩, exStateDrawing.data ++ [⟨5, 5⟩]⟩,
          [Effect.render ⟨0, 0⟩ ⟨5, 5⟩])) :=
  onMove_threshold_behavior exProps exCanvas exMove5 exStateDrawing
    ⟨0, 0⟩ ⟨5, 5⟩ rfl rfl (by simp [getCoordinates, exCanvas, exMove5]) rfl

/-- C3: with recording enabled (and 2D contexts available on mounted
canvases), after any sequence of down/move/up events the recorded path
equals exactly the ordered endpoints of the rendered segments — in
particular the down-point is absent unless it recurs as a move endpoint. -/
theorem recordedPath_eq_renderedEndpoints (props : Props)
    (cv : Option Canvas) (events : List PtrEvent)
    (hrec : props.recordPoints = some true)
    (hctx : ∀ c, cv = some c → c.hasContext = true) :
    (runP props cv initialState events).1.data =
      renderedEndpoints (runP props cv initialState events).2 := by
  have h := runP_data props cv hctx events initialState
  simpa [initialState] using h

/-- C3 witness: the spec's concrete session (down (0,0), move (1,1),
move (5,5), up). -/
theorem recordedPath_eq_renderedEndpoints_witness :
    (runP exProps (some exCanvas) initialState exEventsB).1.data =
      renderedEndpoints (runP exProps (some exCanvas) initialState exEventsB).2 :=
  recordedPath_eq_renderedEndpoints exProps (some exCanvas) exEventsB rfl
    (by intro c h; injection h with h2; rw [← h2]; rfl)

/-- C4: a resize whose replay runs (size mismatch, context available)
issues exactly `N - 1` stroke-render calls joining consecutive recorded
points, and zero calls when `N ≤ 1`. -/
theorem resize_replay_segments (c : Canvas) (w : Window)
    (data : List Coordinates) (hc : c.hasContext = true)
    (hmis : c.width ≠ c.boundingWidth ∨ c.height ≠ c.boundingHeight) :
    resizeEffect (some c) w data = Except.ok (resizeCanvas c w data) ∧
    (resizeCanvas c w data).2 =
      List.zipWith Effect.render data data.tail ∧
    (resizeCanvas c w data).2.length = data.length - 1 ∧
    (data.length ≤ 1 → (resizeCanvas c w data).2 = []) := by
  have h := resizeCanvas_effects c w data hc hmis
  refine ⟨rfl, h, ?_, ?_⟩
  · rw [h, zipWith_render_tail_length]
  · intro hle
    rw [h]
    cases data with
    | nil => rfl
    | cons a tl =>
      cases tl with
      | nil => rfl
      | cons b rest => simp at hle

/-- C4 witness: a three-point path replays as its two consecutive
segments. -/
theorem resize_replay_segments_witness :
    resizeEffect (some exCanvas) exWindow exData3 =
      Except.ok (resizeCanvas exCanvas exWindow exData3) ∧
    (resizeCanvas exCanvas exWindow exData3).2 =
      List.zipWith Effect.render exData3 exData3.tail ∧
    (resizeCanvas exCanvas exWindow exData3).2.length =
      exData3.length - 1 ∧
    (exData3.length ≤ 1 → (resizeCanvas exCanvas exWindow exData3).2 = []) :=
  resize_replay_segments exCanvas exWindow exData3 rfl
    (Or.inl (by norm_num [exCanvas]))

/-- C8: when recording is enabled, the drawing → idle transition emits
the full recorded path to the console; the emission adds no render call,
and the post-transition state is the same whatever `recordPoints` is. -/
theorem up_emits_log_without_state_change (props : Props)
    (cv : Option Canvas) (s : PainterState)
    (hrec : props.recordPoints = some true) (hd : s.drawing = true) :
    stepP props cv s PtrEvent.up =
      (⟨false, none, s.data⟩, [Effect.log s.data]) ∧
    (∀ props2 : Props,
      (stepP props2 cv s PtrEvent.up).1 = ⟨false, none, s.data⟩) ∧
    renderCalls (stepP props cv s PtrEvent.up).2 = [] := by
  refine ⟨?_, ?_, ?_⟩
  · unfold stepP onUp applyDebug debugEffect truthy neqEmptyArray
    simp [hrec, hd]
  · intro props2
    rfl
  · unfold stepP onUp applyDebug debugEffect truthy neqEmptyArray
    simp [hrec, hd, renderCalls]

/-- C8 witness: ending the stroke of `exStateAfter` logs its one-point
path and resets the session. -/
theorem up_emits_log_witness :
    stepP exProps (some exCanvas) exStateAfter PtrEvent.up =
      (⟨false, none, exStateAfter.data⟩, [Effect.log exStateAfter.data]) ∧
    (∀ props2 : Props,
      (stepP props2 (some exCanvas) exStateAfter PtrEvent.up).1 =
        ⟨false, none, exStateAfter.data⟩) ∧
    renderCalls (stepP exProps (some exCanvas) exStateAfter PtrEvent.up).2 =
      [] :=
  up_emits_log_without_state_change exProps (some exCanvas) exStateAfter
    rfl rfl

/-- C9: a qualifying move appends the candidate point to the recorded
path for every value of `recordPoints` (set, unset, true or false), and
the move itself emits nothing on the console. -/
theorem move_appends_regardless_of_recordPoints (props : Props)
    (cv : Option Canvas) (e : PEvent) (s : PainterState)
    (p q : Coordinates) (hd : s.drawing = true) (hp : s.position = some p)
    (hq : getCoordinates cv e = some q)
    (ht : distGtThreshold p q props.threshold = true) :
    (∀ rp : Option Bool,
      (onMove { props with recordPoints := rp } cv e s).1.data =
        s.data ++ [q]) ∧
    (∀ eff ∈ (onMove props cv e s).2, ∀ pts, eff ≠ Effect.log pts) := by
  constructor
  · intro rp
    unfold onMove
    simp [hd, hp, hq, ht]
  · intro eff heff pts
    unfold onMove at heff
    simp [hd, hp, hq, ht] at heff
    cases cv with
    | none => simp [drawLine] at heff
    | some c =>
      simp [drawLine] at heff
      simp [heff.2]

/-- C9 witness: the qualifying move to (5, 5) appends it to the path for
`recordPoints` unset, and renders without logging. -/
theorem move_appends_witness :
    (∀ rp : Option Bool,
      (onMove { exProps with recordPoints := rp } (some exCanvas) exMove5
        exStateDrawing).1.data = exStateDrawing.data ++ [⟨5, 5⟩]) ∧
    (∀ eff ∈ (onMove exProps (some exCanvas) exMove5 exStateDrawing).2,
      ∀ pts, eff ≠ Effect.log pts) :=
  move_appends_regardless_of_recordPoints exProps (some exCanvas) exMove5
    exStateDrawing ⟨0, 0⟩ ⟨5, 5⟩ rfl rfl
    (by simp [getCoordinates, exCanvas, exMove5])
    (by norm_num [distGtThreshold, distSq, exProps])

/-- C10: in every state reachable from the initial state by down/move/up
events, an active drawing flag guarantees a current position. -/
theorem drawing_implies_position (props : Props) (cv : Option Canvas)
    (events : List PtrEvent)
    (hd : (runP props cv initialState events).1.drawing = true) :
    (runP props cv initialState events).1.position.isSome = true := by
  refine runP_drawing_position props cv events initialState ?_ hd
  intro h
  exact absurd h (by decide)

/-- C10 witness: after a single down event the flag is set and a position
exists. -/
theorem drawing_implies_position_witness :
    (runP exProps (some exCanvas) initialState
      [PtrEvent.down exDown0]).1.position.isSome = true :=
  drawing_implies_position exProps (some exCanvas) [PtrEvent.down exDown0]
    (by simp [runP, stepP, onDown, getCoordinates, exCanvas, exDown0,
      initialState, applyDebug, debugEffect])

/-- C1 counterexample: with `recordPoints` unset, a down at (0,0) and
moves to (5,5) and (10,10) leave a NON-empty recorded path, and the
subsequent resize replay issues one stroke-render call, not zero. -/
theorem recording_disabled_counterexample :
    exPropsOff.recordPoints = none ∧
    (runP exPropsOff (some exCanvas) initialState exEventsA).1.data =
      [⟨5, 5⟩, ⟨10, 10⟩] ∧
    (resizeCanvas exCanvas exWindow
      (runP exPropsOff (some exCanvas) initialState exEventsA).1.data).2 =
      [Effect.render ⟨5, 5⟩ ⟨10, 10⟩] ∧
    ([Effect.render ⟨5, 5⟩ ⟨10, 10⟩] : List Effect) ≠ [] := by
  have h1 : getCoordinates (some exCanvas) exDown0 = some ⟨0, 0⟩ := by
    simp [getCoordinates, exCanvas, exDown0]
  have h2 : getCoordinates (some exCanvas) exMove5 = some ⟨5, 5⟩ := by
    simp [getCoordinates, exCanvas, exMove5]
  have h3 : getCoordinates (some exCanvas) exMove10 = some ⟨10, 10⟩ := by
    simp [getCoordinates, exCanvas, exMove10]
  have t1 : distGtThreshold ⟨0, 0⟩ ⟨5, 5⟩ exPropsOff.threshold = true := by
    norm_num [distGtThreshold, distSq, exPropsOff]
  have t2 : distGtThreshold ⟨5, 5⟩ ⟨10, 10⟩ exPropsOff.threshold = true := by
    norm_num [distGtThreshold, distSq, exPropsOff]
  have hdata : (runP exPropsOff (some exCanvas) initialState
      exEventsA).1.data = [⟨5, 5⟩, ⟨10, 10⟩] := by
    simp [exEventsA, runP, stepP, onDown, onMove, h1, h2, h3, t1, t2,
      drawLine, applyDebug, debugEffect, initialState]
  have hresize : (resizeCanvas exCanvas exWindow
      [(⟨5, 5⟩ : Coordinates), ⟨10, 10⟩]).2 =
      [Effect.render ⟨5, 5⟩ ⟨10, 10⟩] := by
    rw [resizeCanvas_effects exCanvas exWindow _ rfl
      (Or.inl (by norm_num [exCanvas]))]
    rfl
  refine ⟨rfl, hdata, ?_, by simp⟩
  rw [hdata, hresize]

/-- C1 amended: disabling recording does not empty the recorded path —
the path is identical to the one recorded with `recordPoints` true, and a
resize replay issues `length - 1` stroke-render calls over it (zero only
when at most one point was retained). -/
theorem recording_disabled_retention (props : Props) (cv : Option Canvas)
    (c : Canvas) (events : List PtrEvent) (w : Window)
    (hoff : props.recordPoints = none ∨ props.recordPoints = some false)
    (hcv : cv = some c) (hc : c.hasContext = true)
    (hmis : c.width ≠ c.boundingWidth ∨ c.height ≠ c.boundingHeight) :
    (runP props cv initialState events).1.data =
      (runP { props with recordPoints := some true }
        cv initialState events).1.data ∧
    (resizeCanvas c w (runP props cv initialState events).1.data).2.length =
      (runP props cv initialState events).1.data.length - 1 := by
  constructor
  · rw [runP_state_recordPoints props (some true) cv events initialState]
  · rw [resizeCanvas_effects c w _ hc hmis, zipWith_render_tail_length]

/-- C1 amended witness: the counterexample scenario satisfies the amended
statement. -/
theorem recording_disabled_retention_witness :
    (runP exPropsOff (some exCanvas) initialState exEventsA).1.data =
      (runP { exPropsOff with recordPoints := some true }
        (some exCanvas) initialState exEventsA).1.data ∧
    (resizeCanvas exCanvas exWindow
      (runP exPropsOff (some exCanvas) initialState exEventsA).1.data).2.length =
      (runP exPropsOff (some exCanvas) initialState exEventsA).1.data.length
        - 1 :=
  recording_disabled_retention exPropsOff (some exCanvas) exCanvas
    exEventsA exWindow (Or.inl rfl) rfl rfl
    (Or.inl (by norm_num [exCanvas]))

/-- C5 counterexample: the resize effect applied while the canvas element
is null does not no-op: the non-null assertion feeds `null` into
`getBoundingClientRect`, modelled as an error (a thrown TypeError). -/
theorem resize_null_canvas_counterexample :
    resizeEffect none exWindow [] = Except.error () := rfl

/-- C5 amended: every operation except the resize effect treats a missing
canvas or missing 2D context as a silent no-op; the resize effect
silently abandons only on a missing context and errors on a null canvas
element. -/
theorem silent_noop_policy :
    (∀ (e : PEvent) (s : PainterState), onDown none e s = (s, [])) ∧
    (∀ (props : Props) (e : PEvent) (s : PainterState),
      onMove props none e s = (s, [])) ∧
    (∀ e : PEvent, getCoordinates none e = none) ∧
    (∀ p1 p2 : Coordinates, drawLine none p1 p2 = []) ∧
    (∀ (c : Canvas) (p1 p2 : Coordinates), c.hasContext = false →
      drawLine (some c) p1 p2 = []) ∧
    (∀ (c : Canvas) (w : Window) (data : List Coordinates),
      c.hasContext = false → resizeCanvas c w data = (c, [])) ∧
    (∀ (w : Window) (data : List Coordinates),
      resizeEffect none w data = Except.error ()) := by
  refine ⟨?_, ?_, ?_, ?_, ?_, ?_, ?_⟩
  · intro e s; rfl
  · intro props e s
    unfold onMove
    cases hs : s.drawing
    · simp
    · cases hp : s.position <;> simp [hp, getCoordinates]
  · intro e; rfl
  · intro p1 p2; rfl
  · intro c p1 p2 h
    unfold drawLine
    simp [h]
  · intro c w data h
    unfold resizeCanvas
    simp [h]
  · intro w data; rfl

/-- C5 amended witness: a context-less canvas is a silent no-op for both
the stroke renderer and the resize, and a null canvas no-ops a move. -/
theorem silent_noop_policy_witness :
    drawLine (some exCanvasNoCtx) ⟨0, 0⟩ ⟨5, 5⟩ = [] ∧
    resizeCanvas exCanvasNoCtx exWindow exData3 = (exCanvasNoCtx, []) ∧
    onMove exProps none exMove5 exStateDrawing = (exStateDrawing, []) :=
  ⟨silent_noop_policy.2.2.2.2.1 exCanvasNoCtx ⟨0, 0⟩ ⟨5, 5⟩ rfl,
   silent_noop_policy.2.2.2.2.2.1 exCanvasNoCtx exWindow exData3 rfl,
   silent_noop_policy.2.1 exProps exMove5 exStateDrawing⟩

end Paintfolio
